import Mathlib

/-
  Verification development for the Sentinel data-extraction pipeline
  (src/index.py, src/s1_service.py, src/s2_service.py).

  The remote geospatial backend evaluates per-pixel band algebra; we embed
  a pixel's band values as rationals (the floating constants 2.5, 7.5, 1.5,
  0.5 used by the source are exactly representable, so the rational model is
  faithful for the numeric claims checked here).  An image, at one pixel, is
  an association list from band name to value; collections are lists of
  per-pixel scene values; exceptions are modelled with Except.
-/

namespace Sentinel

/-- Month keys handled by the pipeline: the six processing months
July..December, in the order the builders iterate them (the month code
list "07", "08", "09", "10", "11", "12" in both services). -/
inductive Month where
  | july | august | september | october | november | december
deriving DecidableEq, Repr

/-- The fixed iteration order of the month loop in both
create_monthwise_s1_collection and create_monthwise_s2_collection. -/
def monthList : List Month :=
  [.july, .august, .september, .october, .november, .december]

/-- Position of a month in the fixed iteration order. -/
def monthIdx : Month → Nat
  | .july => 0
  | .august => 1
  | .september => 2
  | .october => 3
  | .november => 4
  | .december => 5

/-- Month code strings exactly as in the source month loop of
s1_service.create_monthwise_s1_collection. -/
def s1MonthCodes : List String := ["07", "08", "09", "10", "11", "12"]

/-- Month code strings exactly as in the source month loop of
s2_service.create_monthwise_s2_collection. -/
def s2MonthCodes : List String := ["07", "08", "09", "10", "11", "12"]

/-- Day of month of the filter start date in s1_service
(start_date is always day 01). -/
def s1StartDay (_month : String) : Nat := 1

/-- Day of month of the filter end date in s1_service:
end_date day is 30 if month is "09" or "11", else 31. -/
def s1EndDay (month : String) : Nat :=
  if month = "09" ∨ month = "11" then 30 else 31

/-- Day of month of the filter start date in s2_service
(start_date is always day 01). -/
def s2StartDay (_month : String) : Nat := 1

/-- Day of month of the filter end date in s2_service:
end_date day is 30 if month is "09" or "11", else 31. -/
def s2EndDay (month : String) : Nat :=
  if month = "09" ∨ month = "11" then 30 else 31

/- ===== Optical spectral indices (s2_service.compute_indices) ===== -/

/-- NDVI from the source: nir.subtract(red).divide(nir.add(red)). -/
def ndviVal (nir red : ℚ) : ℚ := (nir - red) / (nir + red)

/-- EVI from the source:
nir.subtract(red).multiply(2.5).divide(nir.add(red.multiply(6)).subtract(blue.multiply(7.5)).add(1)). -/
def eviVal (nir red blue : ℚ) : ℚ :=
  (nir - red) * (5/2) / (nir + red * 6 - blue * (15/2) + 1)

/-- GNDVI from the source: nir.subtract(green).divide(nir.add(green)). -/
def gndviVal (nir green : ℚ) : ℚ := (nir - green) / (nir + green)

/-- SAVI from the source:
nir.subtract(red).multiply(1.5).divide(nir.add(red).add(0.5)). -/
def saviVal (nir red : ℚ) : ℚ := (nir - red) * (3/2) / (nir + red + 1/2)

/-- NDWI from the source: green.subtract(nir).divide(green.add(nir)). -/
def ndwiVal (green nir : ℚ) : ℚ := (green - nir) / (green + nir)

/-- NDMI from the source: nir.subtract(swir1).divide(nir.add(swir1)). -/
def ndmiVal (nir swir1 : ℚ) : ℚ := (nir - swir1) / (nir + swir1)

/-- RENDVI from the source: rededge.subtract(red).divide(rededge.add(red)). -/
def rendviVal (rededge red : ℚ) : ℚ := (rededge - red) / (rededge + red)

/-- NDVI as written in the specification table: (NIR-RED)/(NIR+RED). -/
def ndviSpec (nir red : ℚ) : ℚ := (nir - red) / (nir + red)

/-- EVI as written in the specification table:
2.5 times (NIR-RED) over (NIR+6RED-7.5BLUE+1). -/
def eviSpec (nir red blue : ℚ) : ℚ :=
  (5/2) * (nir - red) / (nir + 6 * red - (15/2) * blue + 1)

/-- GNDVI as written in the specification table: (NIR-GREEN)/(NIR+GREEN). -/
def gndviSpec (nir green : ℚ) : ℚ := (nir - green) / (nir + green)

/-- SAVI as written in the specification table:
1.5 times (NIR-RED) over (NIR+RED+0.5). -/
def saviSpec (nir red : ℚ) : ℚ := (3/2) * (nir - red) / (nir + red + 1/2)

/-- NDWI as written in the specification table: (GREEN-NIR)/(GREEN+NIR). -/
def ndwiSpec (green nir : ℚ) : ℚ := (green - nir) / (green + nir)

/-- NDMI as written in the specification table: (NIR-SWIR1)/(NIR+SWIR1). -/
def ndmiSpec (nir swir1 : ℚ) : ℚ := (nir - swir1) / (nir + swir1)

/-- RENDVI as written in the specification table:
(REDEDGE-RED)/(REDEDGE+RED). -/
def rendviSpec (rededge red : ℚ) : ℚ := (rededge - red) / (rededge + red)

/-- Band names occurring in the optical pipeline, as an enumeration (the
source uses the corresponding string literals): the seven measurement bands
kept by apply_cld_shdw_mask and the seven derived index bands. -/
inductive Band where
  | B2 | B3 | B4 | B5 | B8 | B11 | B12
  | NDVI | EVI | GNDVI | SAVI | NDWI | NDMI | RENDVI
deriving DecidableEq, Repr

/-- An optical image restricted to one pixel: ordered association list of
band name to band value, mirroring the ordered band list of an ee.Image. -/
abbrev Image := List (Band × ℚ)

/-- image.select(band) at one pixel: value of the first band with the given
name (all images the pipeline builds carry each band name at most once). -/
def selectBand : Image → Band → ℚ
  | [], _ => 0
  | (n, v) :: rest, b => if n = b then v else selectBand rest b

/-- Pixel-level embedding of s2_service.compute_indices: reads the six input
bands used by the formulas and appends the seven derived index bands via
image.addBands, leaving the existing bands in place. -/
def compute_indices (img : Image) : Image :=
  let nir := selectBand img .B8
  let red := selectBand img .B4
  let blue := selectBand img .B2
  let green := selectBand img .B3
  let rededge := selectBand img .B5
  let swir1 := selectBand img .B11
  img ++ [(.NDVI, ndviVal nir red), (.EVI, eviVal nir red blue),
          (.GNDVI, gndviVal nir green), (.SAVI, saviVal nir red),
          (.NDWI, ndwiVal green nir), (.NDMI, ndmiVal nir swir1),
          (.RENDVI, rendviVal rededge red)]

/-- Synthetic composited band values from the specification test vector:
NIR=0.5, RED=0.1, BLUE=0.05, GREEN=0.2, REDEDGE=0.3, SWIR1=0.15 (and an
arbitrary value for the B12 band of the composite, unused by the
formulas). -/
def synthImage : Image :=
  [(.B2, 1/20), (.B3, 1/5), (.B4, 1/10), (.B5, 3/10),
   (.B8, 1/2), (.B11, 3/20), (.B12, 11/50)]

/- ===== Radar median composite and ratio band (s1_service) ===== -/

/-- Raw radar band values of one scene at one pixel: the two bands selected
by create_monthwise_s1_collection, in selection order ["VV", "VH"]. -/
structure S1Pixel where
  vv : ℚ
  vh : ℚ
deriving DecidableEq, Repr

/-- Insertion of a value into a sorted list of rationals. -/
def insertSorted (x : ℚ) : List ℚ → List ℚ
  | [] => [x]
  | y :: ys => if x ≤ y then x :: y :: ys else y :: insertSorted x ys

/-- Insertion sort of a list of rationals (kernel-reducible). -/
def sortQ : List ℚ → List ℚ
  | [] => []
  | x :: xs => insertSorted x (sortQ xs)

/-- The median reducer of the backend at one pixel: middle element of the
sorted value list for an odd count, mean of the two middle elements for an
even count, 0 (masked / no data) for an empty collection. -/
def medianQ (xs : List ℚ) : ℚ :=
  let s := sortQ xs
  let n := s.length
  if n = 0 then 0
  else if n % 2 = 1 then s.getD (n / 2) 0
  else (s.getD (n / 2 - 1) 0 + s.getD (n / 2) 0) / 2

/-- Per-pixel median composite of a radar month,
s1_collection.median in create_monthwise_s1_collection: the median is taken
band-wise over the filtered scene collection. -/
def s1CompositePix (scenes : List S1Pixel) : S1Pixel :=
  { vv := medianQ (scenes.map S1Pixel.vv), vh := medianQ (scenes.map S1Pixel.vh) }

/-- The derived ratio band of a radar month, from the source line
median_image.select("VH").divide(median_image.select("VV")): the second
raw band over the first raw band of the median composite. -/
def vhVvBand (scenes : List S1Pixel) : ℚ :=
  (s1CompositePix scenes).vh / (s1CompositePix scenes).vv

/-- A concrete two-scene pixel history whose median composite is
VV = -12, VH = -18 while no individual scene has those values. -/
def c2Scenes : List S1Pixel := [⟨-10, -20⟩, ⟨-14, -16⟩]

/- ===== Batching (index.py) ===== -/

/-- Number of batches from index.py: (len(df_input) + batch_size - 1) //
batch_size, with floor division on naturals. -/
def num_batches (n b : Nat) : Nat := (n + b - 1) / b

/-- The batch slices built by the dispatch loop of index.py: for each
batch_idx below num_batches, the slice df_input.iloc[start:end] with
start = batch_idx * batch_size and end = min((batch_idx+1) * batch_size, n);
drop start followed by take batch_size yields exactly that slice. -/
def batchSlices (xs : List α) (b : Nat) : List (List α) :=
  (List.range (num_batches xs.length b)).map fun i => (xs.drop (i * b)).take b

/- ===== Month-loop orchestration of the two composite builders =====

The per-month backend computation (collection filtering, masking, median,
index or ratio derivation) is abstracted as a function build : Month ->
Except e C: an Except.error is a raised Python exception, an Except.ok is a
successfully assigned composite.  The two builders differ exactly as the
two source files do: the s1 loop wraps each month in try/except (failure
logged, entry left unset, loop continues), while the s2 loop body has no
try/except, so a failing month raises out of the whole builder. -/

/-- Month loop of s1_service.create_monthwise_s1_collection after a
successful region load: each iteration has its own try/except, so each
global month variable is set exactly when its own build succeeds. -/
def s1MonthLoop (build : Month → Except ε C) : Month → Option C :=
  fun m => (build m).toOption

/-- Month loop of s2_service.create_monthwise_s2_collection: iterations run
in order with no try/except; on the first failing month the exception
propagates, leaving that month and all later months unset while months
already assigned keep their composites.  Returns the final global state and
the escaped exception, if any. -/
def s2MonthLoop (build : Month → Except ε C) :
    List Month → (Month → Option C) → (Month → Option C) × Option ε
  | [], cache => (cache, none)
  | m :: rest, cache =>
    match build m with
    | .ok c => s2MonthLoop build rest fun m2 => if m2 = m then some c else cache m2
    | .error e => (cache, some e)

/-- s1_service.create_monthwise_s1_collection: the region load is wrapped
in try/except with an early return, so a load failure leaves every month
unset and the function returns normally (the run continues); otherwise the
month loop runs with per-month failure isolation. -/
def create_monthwise_s1_collection (load : Except ε Region)
    (build : Region → Month → Except ε C) : Month → Option C :=
  match load with
  | .error _ => fun _ => none
  | .ok region => s1MonthLoop (build region)

/-- s2_service.create_monthwise_s2_collection: the region load is NOT
wrapped in try/except, so a load failure escapes the builder; the month
loop likewise propagates the first per-month failure.  Returns the final
global month state together with the escaped exception, if any. -/
def create_monthwise_s2_collection (load : Except ε Region)
    (build : Region → Month → Except ε C) : (Month → Option C) × Option ε :=
  match load with
  | .error e => (fun _ => none, some e)
  | .ok region => s2MonthLoop (build region) monthList fun _ => none

/-- The two sensors whose composites are cached and sampled. -/
inductive Sensor where
  | s1 | s2
deriving DecidableEq, Repr

/-- Observable outcome of one run of index.py: the two composite caches,
the produced output files as an optional row list per
(sensor, month, batch index), and the exception, if any, that escaped to
the module top level and killed the process. -/
structure PipelineResult (ε C Row : Type) where
  s1cache : Month → Option C
  s2cache : Month → Option C
  outputs : Sensor → Month → Nat → Option (List Row)
  fatal : Option ε

/-- Top-level flow of index.py: create_monthwise_s1_collection, then
create_monthwise_s2_collection (both before any batch is dispatched), then
the batch loop sampling each cached composite per month.  Both builders
read the same region resource, whose load outcome is deterministic, hence
a single load argument.  An exception escaping the s2 builder is unhandled
at module level: the process dies before any extraction, so no output file
is produced.  Extraction of one (sensor, month, batch) unit produces a
file exactly when the cache holds a composite for that key and the
sampling call succeeds (sample returns the row list, none on failure). -/
def runPipeline (load : Except ε Region)
    (s1build s2build : Region → Month → Except ε C) (numBatchesRun : Nat)
    (sample : Sensor → Month → C → Nat → Option (List Row)) :
    PipelineResult ε C Row :=
  let s1c := create_monthwise_s1_collection load s1build
  let s2r := create_monthwise_s2_collection load s2build
  match s2r.2 with
  | some e =>
    { s1cache := s1c, s2cache := s2r.1, outputs := fun _ _ _ => none,
      fatal := some e }
  | none =>
    { s1cache := s1c, s2cache := s2r.1,
      outputs := fun s m b =>
        if b < numBatchesRun then
          (match s with | .s1 => s1c m | .s2 => s2r.1 m).bind
            fun c => sample s m c b
        else none,
      fatal := none }

/-- A per-month optical build outcome that fails for July only and
succeeds with composite 1 for every other month. -/
def julyFailBuild : Month → Except Unit Nat :=
  fun m => match m with | .july => .error () | _ => .ok 1

/- ===== Sampling exporters (export_sentinel_1_data / _2_data) ===== -/

/-- Kind of a Python exception as seen by the except clauses of the two
exporters, whose only handler is except ee.EEException: eeExc is an
ee.EEException (a backend-query failure), otherExc is any other exception
(KeyError from props["id"], OSError from df.to_csv, and so on). -/
inductive ExcKind where
  | eeExc | otherExc
deriving DecidableEq, Repr

/-- Property keys of a sampled feature, as an enumeration (the source uses
the corresponding string literals): the id property plus the band and
index properties read by the two exporters. -/
inductive PropName where
  | pid | VV | VH | VH_VV
  | NDVI | EVI | GNDVI | SAVI | NDWI | NDMI | RENDVI
deriving DecidableEq, Repr

/-- One feature of the list returned by sampled_fc.getInfo(): a property
dictionary (a key is absent when the backend returned no value for it) and
the point geometry coordinates [longitude, latitude]. -/
structure SampledFeature where
  props : PropName → Option ℚ
  lon : ℚ
  lat : ℚ

/-- One row of a radar output CSV. -/
structure S1Row where
  id : ℚ
  lon : ℚ
  lat : ℚ
  vv : ℚ
  vh : ℚ
  vhVv : ℚ
deriving DecidableEq, Repr

/-- One row of an optical output CSV. -/
structure S2Row where
  id : ℚ
  lon : ℚ
  lat : ℚ
  ndvi : ℚ
  evi : ℚ
  gndvi : ℚ
  savi : ℚ
  ndwi : ℚ
  ndmi : ℚ
  rendvi : ℚ
deriving DecidableEq, Repr

/-- Row construction of export_sentinel_1_data: id is props["id"]
(a KeyError, of non-EEException kind, if absent), longitude and latitude
come from the feature geometry, and each band uses props.get(name, 0),
so an absent band property becomes 0. -/
def s1RowOfFeature (f : SampledFeature) : Except ExcKind S1Row :=
  match f.props .pid with
  | none => .error .otherExc
  | some i =>
    .ok { id := i, lon := f.lon, lat := f.lat,
          vv := (f.props .VV).getD 0, vh := (f.props .VH).getD 0,
          vhVv := (f.props .VH_VV).getD 0 }

/-- Row construction of export_sentinel_2_data: id is props["id"]
(a KeyError, of non-EEException kind, if absent), longitude and latitude
come from the feature geometry, and each of the seven index properties
uses props.get(name, 0), so an absent index property becomes 0. -/
def s2RowOfFeature (f : SampledFeature) : Except ExcKind S2Row :=
  match f.props .pid with
  | none => .error .otherExc
  | some i =>
    .ok { id := i, lon := f.lon, lat := f.lat,
          ndvi := (f.props .NDVI).getD 0, evi := (f.props .EVI).getD 0,
          gndvi := (f.props .GNDVI).getD 0, savi := (f.props .SAVI).getD 0,
          ndwi := (f.props .NDWI).getD 0, ndmi := (f.props .NDMI).getD 0,
          rendvi := (f.props .RENDVI).getD 0 }

/-- The row-building for loop of export_sentinel_1_data: converts the
returned features to rows in order, raising at the first feature whose id
property is absent. -/
def s1RowsOfFeatures : List SampledFeature → Except ExcKind (List S1Row)
  | [] => .ok []
  | f :: rest =>
    match s1RowOfFeature f with
    | .error e => .error e
    | .ok r =>
      match s1RowsOfFeatures rest with
      | .error e => .error e
      | .ok rs => .ok (r :: rs)

/-- The row-building for loop of export_sentinel_2_data. -/
def s2RowsOfFeatures : List SampledFeature → Except ExcKind (List S2Row)
  | [] => .ok []
  | f :: rest =>
    match s2RowOfFeature f with
    | .error e => .error e
    | .ok r =>
      match s2RowsOfFeatures rest with
      | .error e => .error e
      | .ok rs => .ok (r :: rs)

/-- The try block of export_sentinel_1_data: getInfo on the sampled
collection, then the row-building loop, then df.to_csv; the first raised
exception aborts the block. -/
def s1TryBlock (getInfo : Except ExcKind (List SampledFeature))
    (toCsv : List S1Row → Except ExcKind Unit) : Except ExcKind (List S1Row) :=
  match getInfo with
  | .error e => .error e
  | .ok feats =>
    match s1RowsOfFeatures feats with
    | .error e => .error e
    | .ok rows =>
      match toCsv rows with
      | .error e => .error e
      | .ok _ => .ok rows

/-- The try block of export_sentinel_2_data. -/
def s2TryBlock (getInfo : Except ExcKind (List SampledFeature))
    (toCsv : List S2Row → Except ExcKind Unit) : Except ExcKind (List S2Row) :=
  match getInfo with
  | .error e => .error e
  | .ok feats =>
    match s2RowsOfFeatures feats with
    | .error e => .error e
    | .ok rows =>
      match toCsv rows with
      | .error e => .error e
      | .ok _ => .ok rows

/-- export_sentinel_1_data: if the month image is uninitialized, log and
return (no file); otherwise run the try block and catch ONLY
ee.EEException (logged, no file, normal return).  An exception of any
other kind propagates past the function to its caller.  The ok value is
the written file content (none when no file was produced). -/
def export_sentinel_1_data (img : Option C)
    (getInfo : C → Except ExcKind (List SampledFeature))
    (toCsv : List S1Row → Except ExcKind Unit) :
    Except ExcKind (Option (List S1Row)) :=
  match img with
  | none => .ok none
  | some c =>
    match s1TryBlock (getInfo c) toCsv with
    | .ok rows => .ok (some rows)
    | .error .eeExc => .ok none
    | .error .otherExc => .error .otherExc

/-- export_sentinel_2_data: the same try / except-EEException-only shape as
export_sentinel_1_data, with the optical row schema. -/
def export_sentinel_2_data (img : Option C)
    (getInfo : C → Except ExcKind (List SampledFeature))
    (toCsv : List S2Row → Except ExcKind Unit) :
    Except ExcKind (Option (List S2Row)) :=
  match img with
  | none => .ok none
  | some c =>
    match s2TryBlock (getInfo c) toCsv with
    | .ok rows => .ok (some rows)
    | .error .eeExc => .ok none
    | .error .otherExc => .error .otherExc

/-- A sampled feature carrying only the id property, with every band and
index property absent. -/
def idOnlyFeature : SampledFeature :=
  { props := fun s => if s = .pid then some 3 else none, lon := 77, lat := 13 }

/-- The radar row that export_sentinel_1_data builds from idOnlyFeature:
id, longitude and latitude carried through, every band column 0. -/
def idOnlyRow : S1Row :=
  { id := 3, lon := 77, lat := 13, vv := 0, vh := 0, vhVv := 0 }

/- ===== Cloud/shadow mask morphology (s2_service) ===== -/

/-- Offsets of the circular kernel of radius r used by the focal
operators (the backend default kernel is a circle of the given pixel
radius): all integer offsets within euclidean distance r of the center. -/
def diskOffsets (r : Nat) : List (ℤ × ℤ) :=
  (((List.range (2 * r + 1)).flatMap fun i =>
    (List.range (2 * r + 1)).map fun j =>
      (((i : ℤ) - (r : ℤ)), ((j : ℤ) - (r : ℤ)))).filter
    fun d => d.1 * d.1 + d.2 * d.2 ≤ (r : ℤ) * (r : ℤ))

/-- focalMin over a binary band: morphological erosion, 1 exactly when the
whole radius-r neighborhood is 1. -/
def focalMin (r : Nat) (f : ℤ × ℤ → Bool) : ℤ × ℤ → Bool :=
  fun p => (diskOffsets r).all fun d => f (p.1 + d.1, p.2 + d.2)

/-- focalMax over a binary band: morphological dilation, 1 exactly when
some pixel of the radius-r neighborhood is 1. -/
def focalMax (r : Nat) (f : ℤ × ℤ → Bool) : ℤ × ℤ → Bool :=
  fun p => (diskOffsets r).any fun d => f (p.1 + d.1, p.2 + d.2)

/-- The pre-morphology mask union of add_cld_shdw_mask:
clouds.add(shadows).gt(0) on the two binary flag bands, which is the
pointwise OR of the cloud flag and the shadow flag. -/
def maskUnion (cloud shadow : ℤ × ℤ → Bool) : ℤ × ℤ → Bool :=
  fun p => cloud p || shadow p

/-- The cloudmask band produced by add_cld_shdw_mask: the union flag after
focalMin(2) (erosion, radius 2) then focalMax(BUFFER * 2 / 20) =
focalMax(4) (dilation, radius 4); the reprojection step is the identity in
this single-resolution pixel-grid model. -/
def add_cld_shdw_mask (cloud shadow : ℤ × ℤ → Bool) : ℤ × ℤ → Bool :=
  focalMax 4 (focalMin 2 (maskUnion cloud shadow))

/-- apply_cld_shdw_mask on one measurement band:
updateMask(cloudmask.Not()) hides a pixel (it contributes nothing to the
later median reduction) exactly when the cloudmask flag is 1. -/
def apply_cld_shdw_mask (cloudmask : ℤ × ℤ → Bool) (band : ℤ × ℤ → ℚ) :
    ℤ × ℤ → Option ℚ :=
  fun p => if cloudmask p then none else some (band p)

/-- Contribution of one scene to the median reduction input at each pixel,
after the full mask pipeline of the scene: some value where the pixel
survives the mask, none where it is excluded. -/
def sceneContribution (cloud shadow : ℤ × ℤ → Bool) (band : ℤ × ℤ → ℚ) :
    ℤ × ℤ → Option ℚ :=
  apply_cld_shdw_mask (add_cld_shdw_mask cloud shadow) band

/-- A cloud flag raised at the origin only (an isolated one-pixel cloud). -/
def isolatedCloud : ℤ × ℤ → Bool := fun p => decide (p = ((0 : ℤ), (0 : ℤ)))

/-- An everywhere-zero flag band. -/
def noFlag : ℤ × ℤ → Bool := fun _ => false

/- ===================== Helper theorems ===================== -/

theorem ndvi_eq_spec (nir red : ℚ) : ndviVal nir red = ndviSpec nir red := rfl

theorem evi_eq_spec (nir red blue : ℚ) :
    eviVal nir red blue = eviSpec nir red blue := by
  unfold eviVal eviSpec
  congr 1
  · ring
  · ring

theorem gndvi_eq_spec (nir green : ℚ) :
    gndviVal nir green = gndviSpec nir green := rfl

theorem savi_eq_spec (nir red : ℚ) : saviVal nir red = saviSpec nir red := by
  unfold saviVal saviSpec
  congr 1
  ring

theorem ndwi_eq_spec (green nir : ℚ) : ndwiVal green nir = ndwiSpec green nir := rfl

theorem ndmi_eq_spec (nir swir1 : ℚ) : ndmiVal nir swir1 = ndmiSpec nir swir1 := rfl

theorem rendvi_eq_spec (rededge red : ℚ) :
    rendviVal rededge red = rendviSpec rededge red := rfl

theorem take_add_split (l : List α) (m n : Nat) :
    l.take (m + n) = l.take m ++ (l.drop m).take n := by
  conv_lhs => rw [← List.take_append_drop m (l.take (m + n))]
  congr 1
  · rw [List.take_take, Nat.min_eq_left (Nat.le_add_right m n)]
  · rw [List.take_drop]

theorem flatten_range_take (xs : List α) (b : Nat) :
    ∀ k, (((List.range k).map fun i => (xs.drop (i * b)).take b).flatten
      = xs.take (k * b))
  | 0 => by simp
  | k + 1 => by
    rw [List.range_succ, List.map_append, List.flatten_append,
      flatten_range_take xs b k]
    simp [Nat.succ_mul, take_add_split]

theorem le_num_batches_mul (n b : Nat) (hb : 0 < b) :
    n ≤ num_batches n b * b := by
  unfold num_batches
  have h := Nat.div_add_mod (n + b - 1) b
  have h2 : (n + b - 1) % b < b := Nat.mod_lt _ hb
  rw [Nat.mul_comm]
  generalize hq : b * ((n + b - 1) / b) = M at h ⊢
  omega

/- ===================== Claim theorems ===================== -/

/-- Claim C1: for every optical monthly composite, the seven derived index
bands appended by compute_indices equal the specification formulas
evaluated pixel-wise on the composited bands (NIR=B8, RED=B4, BLUE=B2,
GREEN=B3, REDEDGE=B5, SWIR1=B11); and on the synthetic band values
NIR=0.5, RED=0.1, BLUE=0.05, GREEN=0.2, REDEDGE=0.3, SWIR1=0.15, NDVI is
0.6667 within 0.0001 and every index matches its hand-computed value
(exact rational given, and agreement with the 4-decimal rounding within
0.0001). -/
theorem c1_indexFormulas :
    (∀ img : Image, (compute_indices img).drop img.length =
      [(.NDVI, ndviSpec (selectBand img .B8) (selectBand img .B4)),
       (.EVI, eviSpec (selectBand img .B8) (selectBand img .B4) (selectBand img .B2)),
       (.GNDVI, gndviSpec (selectBand img .B8) (selectBand img .B3)),
       (.SAVI, saviSpec (selectBand img .B8) (selectBand img .B4)),
       (.NDWI, ndwiSpec (selectBand img .B3) (selectBand img .B8)),
       (.NDMI, ndmiSpec (selectBand img .B8) (selectBand img .B11)),
       (.RENDVI, rendviSpec (selectBand img .B5) (selectBand img .B4))]) ∧
    (selectBand (compute_indices synthImage) .NDVI = 2/3 ∧
      |selectBand (compute_indices synthImage) .NDVI - 6667/10000| ≤ 1/10000) ∧
    (selectBand (compute_indices synthImage) .EVI = 40/69 ∧
      |selectBand (compute_indices synthImage) .EVI - 5797/10000| ≤ 1/10000) ∧
    (selectBand (compute_indices synthImage) .GNDVI = 3/7 ∧
      |selectBand (compute_indices synthImage) .GNDVI - 4286/10000| ≤ 1/10000) ∧
    (selectBand (compute_indices synthImage) .SAVI = 6/11 ∧
      |selectBand (compute_indices synthImage) .SAVI - 5455/10000| ≤ 1/10000) ∧
    (selectBand (compute_indices synthImage) .NDWI = -(3/7) ∧
      |selectBand (compute_indices synthImage) .NDWI + 4286/10000| ≤ 1/10000) ∧
    (selectBand (compute_indices synthImage) .NDMI = 7/13 ∧
      |selectBand (compute_indices synthImage) .NDMI - 5385/10000| ≤ 1/10000) ∧
    (selectBand (compute_indices synthImage) .RENDVI = 1/2 ∧
      |selectBand (compute_indices synthImage) .RENDVI - 5000/10000| ≤ 1/10000) := by
  have hNDVI : selectBand (compute_indices synthImage) .NDVI
      = ndviVal (1/2) (1/10) := rfl
  have hEVI : selectBand (compute_indices synthImage) .EVI
      = eviVal (1/2) (1/10) (1/20) := rfl
  have hGNDVI : selectBand (compute_indices synthImage) .GNDVI
      = gndviVal (1/2) (1/5) := rfl
  have hSAVI : selectBand (compute_indices synthImage) .SAVI
      = saviVal (1/2) (1/10) := rfl
  have hNDWI : selectBand (compute_indices synthImage) .NDWI
      = ndwiVal (1/5) (1/2) := rfl
  have hNDMI : selectBand (compute_indices synthImage) .NDMI
      = ndmiVal (1/2) (3/20) := rfl
  have hRENDVI : selectBand (compute_indices synthImage) .RENDVI
      = rendviVal (3/10) (1/10) := rfl
  refine ⟨?_, ?_, ?_, ?_, ?_, ?_, ?_, ?_⟩
  · intro img
    simp [compute_indices, List.drop_left, ndvi_eq_spec, evi_eq_spec,
      gndvi_eq_spec, savi_eq_spec, ndwi_eq_spec, ndmi_eq_spec, rendvi_eq_spec]
  · rw [hNDVI, abs_le]; norm_num [ndviVal]
  · rw [hEVI, abs_le]; norm_num [eviVal]
  · rw [hGNDVI, abs_le]; norm_num [gndviVal]
  · rw [hSAVI, abs_le]; norm_num [saviVal]
  · rw [hNDWI, abs_le]; norm_num [ndwiVal]
  · rw [hNDMI, abs_le]; norm_num [ndmiVal]
  · rw [hRENDVI, abs_le]; norm_num [rendviVal]

/-- Claim C10: compute_indices only adds bands: the returned image starts
with every band of the input image unchanged and appends exactly the seven
new index bands NDVI, EVI, GNDVI, SAVI, NDWI, NDMI, RENDVI; no
pre-existing band is removed, renamed or modified. -/
theorem c10_computeIndicesOnlyAddsBands (img : Image) :
    (compute_indices img).take img.length = img ∧
    (compute_indices img).map Prod.fst = img.map Prod.fst ++
      [Band.NDVI, .EVI, .GNDVI, .SAVI, .NDWI, .NDMI, .RENDVI] ∧
    (compute_indices img).length = img.length + 7 := by
  refine ⟨?_, ?_, ?_⟩ <;> simp [compute_indices, List.take_left]

/-- Claim C8: for every processing month the filter date range starts on
day 1, the end day is 30 exactly for the two designated months "09"
(September) and "11" (November) and 31 for the other four processing
months "07", "08", "10", "12", and the radar and optical builders use
identical month codes and boundary rules. -/
theorem c8_monthBoundaries :
    (∀ m : String, s1EndDay m = s2EndDay m ∧ s1StartDay m = 1 ∧ s2StartDay m = 1) ∧
    s1MonthCodes = s2MonthCodes ∧
    s1EndDay "09" = 30 ∧ s1EndDay "11" = 30 ∧
    s1EndDay "07" = 31 ∧ s1EndDay "08" = 31 ∧
    s1EndDay "10" = 31 ∧ s1EndDay "12" = 31 ∧
    s2EndDay "09" = 30 ∧ s2EndDay "11" = 30 ∧
    s2EndDay "07" = 31 ∧ s2EndDay "08" = 31 ∧
    s2EndDay "10" = 31 ∧ s2EndDay "12" = 31 :=
  ⟨fun _ => ⟨rfl, rfl, rfl⟩, rfl, rfl, rfl, rfl, rfl, rfl, rfl,
    rfl, rfl, rfl, rfl, rfl, rfl⟩

/-- Claim C2: for every radar month, the derived ratio band is the second
raw band (VH) divided by the first raw band (VV) of the per-pixel median
composite of the filtered collection, not of individual scenes; in
particular when the median composite has VV = -12 and VH = -18 the ratio
is exactly 1.5, with no unit conversion. -/
theorem c2_ratioOnMedianComposite (scenes : List S1Pixel)
    (h : s1CompositePix scenes = ⟨-12, -18⟩) :
    vhVvBand scenes
      = medianQ (scenes.map S1Pixel.vh) / medianQ (scenes.map S1Pixel.vv) ∧
    vhVvBand scenes = 3/2 := by
  refine ⟨rfl, ?_⟩
  rw [vhVvBand, h]
  norm_num

/-- Witness for C2: a concrete two-scene history whose median composite is
VV = -12, VH = -18; the ratio band is 1.5 there, while the median of the
per-scene ratios is a different number, showing the ratio is taken on the
median composite and not per scene. -/
theorem c2_ratioOnMedianComposite_witness :
    s1CompositePix c2Scenes = ⟨-12, -18⟩ ∧
    vhVvBand c2Scenes = 3/2 ∧
    medianQ (c2Scenes.map fun s => s.vh / s.vv) ≠ 3/2 := by
  have hcomp : s1CompositePix c2Scenes = ⟨-12, -18⟩ := by
    norm_num [s1CompositePix, c2Scenes, medianQ, sortQ, insertSorted]
  exact ⟨hcomp, (c2_ratioOnMedianComposite c2Scenes hcomp).2,
    by norm_num [c2Scenes, medianQ, sortQ, insertSorted]⟩

/-- Claim C3: for every ordered input and batch size B above 0, the batch
loop produces exactly ceiling(N/B) contiguous slices of at most B
coordinates each whose concatenation in batch order is the input in input
order (so the slices partition the input with no duplicates). -/
theorem c3_batchingPartition (α : Type) (xs : List α) (b : Nat) (hb : 0 < b) :
    (batchSlices xs b).length = (xs.length + b - 1) / b ∧
    (∀ c ∈ batchSlices xs b, c.length ≤ b) ∧
    (batchSlices xs b).flatten = xs := by
  refine ⟨by simp [batchSlices, num_batches], ?_, ?_⟩
  · intro c hc
    simp only [batchSlices, List.mem_map, List.mem_range] at hc
    obtain ⟨i, hi, rfl⟩ := hc
    simp [List.length_take_le]
  · rw [batchSlices, flatten_range_take]
    exact List.take_of_length_le (le_num_batches_mul _ _ hb)

/-- Witness for C3: for the input 0,...,8999 and batch size 4000 the batch
loop yields exactly 3 batches of sizes 4000, 4000 and 1000 whose
concatenation is exactly the input list 0,...,8999 (hence the id sets
partition the range with no duplicates, in input order). -/
theorem c3_batchingPartition_witness :
    (batchSlices (List.range 9000) 4000).length = 3 ∧
    (batchSlices (List.range 9000) 4000).map List.length = [4000, 4000, 1000] ∧
    (batchSlices (List.range 9000) 4000).flatten = List.range 9000 := by
  have hpart := c3_batchingPartition Nat (List.range 9000) 4000 (by norm_num)
  refine ⟨?_, ?_, hpart.2.2⟩
  · rw [hpart.1]; simp [List.length_range]
  · have h : num_batches (List.range 9000).length 4000 = 3 := by
      simp [num_batches, List.length_range]
    rw [batchSlices, h]
    have h3 : List.range 3 = [0, 1, 2] := rfl
    rw [h3]
    simp only [List.map_cons, List.map_nil, List.length_take, List.length_drop,
      List.length_range]
    norm_num

/-- Counterexample to claim C4 as stated: with an optical build that fails
for July only and succeeds for every other month, the August build result
is ok, yet after create_monthwise_s2_collection the August composite is
unset and the failure has escaped the builder (the month loop has no
try/except, unlike the radar builder); moreover the escaped exception
kills the run before batch dispatch, so even radar extraction produces no
output despite the radar cache being populated. -/
theorem c4_counterexample :
    (julyFailBuild .august = .ok 1) ∧
    ((create_monthwise_s2_collection (Except.ok ()) fun _ => julyFailBuild).1
      .august = none) ∧
    ((create_monthwise_s2_collection (Except.ok ()) fun _ => julyFailBuild).2
      = some ()) ∧
    ((runPipeline (Except.ok ()) (fun _ _ => Except.ok (1 : Nat))
        (fun _ => julyFailBuild) 1 (fun _ _ _ _ => some [()])).s1cache .august
      = some 1) ∧
    ((runPipeline (Except.ok ()) (fun _ _ => Except.ok (1 : Nat))
        (fun _ => julyFailBuild) 1 (fun _ _ _ _ => some [()])).outputs
      .s1 .august 0 = none) :=
  ⟨rfl, rfl, rfl, rfl, rfl⟩

/-- Claim C4 as amended: if the optical composite build fails for exactly
one month, that month and every later month in the fixed processing order
are left unset (their builds never run) while months built earlier keep
their composites, and the failure escapes the builder as an exception, so
the run aborts before any extraction (no radar or optical output file is
produced). -/
theorem c4_opticalFailureAbortsLaterMonths (ε C R : Type) (r : R)
    (val : Month → C) (m : Month) (e : ε) :
    ((create_monthwise_s2_collection (Except.ok r)
        (fun _ m2 => if m2 = m then Except.error e else Except.ok (val m2))).2
      = some e) ∧
    (∀ m2, (create_monthwise_s2_collection (Except.ok r)
        (fun _ m2 => if m2 = m then Except.error e else Except.ok (val m2))).1 m2
      = if monthIdx m2 < monthIdx m then some (val m2) else none) ∧
    (∀ (Row : Type) (nb : Nat)
        (sample : Sensor → Month → C → Nat → Option (List Row))
        (s1b : R → Month → Except ε C) (s : Sensor) (m2 : Month) (b : Nat),
      (runPipeline (Except.ok r) s1b
          (fun _ m2 => if m2 = m then Except.error e else Except.ok (val m2))
          nb sample).outputs s m2 b = none) := by
  have hfatal : (create_monthwise_s2_collection (Except.ok r)
      (fun _ m2 => if m2 = m then Except.error e else Except.ok (val m2))).2
      = some e := by
    cases m <;> simp [create_monthwise_s2_collection, s2MonthLoop, monthList]
  refine ⟨hfatal, ?_, ?_⟩
  · intro m2
    cases m <;> cases m2 <;>
      simp [create_monthwise_s2_collection, s2MonthLoop, monthList, monthIdx]
  · intro Row nb sample s1b s m2 b
    simp [runPipeline, hfatal]

/-- Claim C5: if the region geometry resource is missing or malformed, the
resulting load exception reaches the top level before any extraction: the
run dies with that exception, neither builder ever receives a region value
(no partial region exists, the builders are only ever given a fully loaded
region), no composite of either sensor is set and no output file is
produced.  In the source the radar builder swallows the load failure and
returns with every month unset, and the optical builder then reopens the
same resource, whose load fails again and escapes fatally before batch
dispatch. -/
theorem c5_regionLoadFailureIsFatal (ε R C Row : Type) (e : ε)
    (s1b s2b : R → Month → Except ε C) (nb : Nat)
    (sample : Sensor → Month → C → Nat → Option (List Row)) :
    ((runPipeline (Except.error e) s1b s2b nb sample).fatal = some e) ∧
    (∀ m, (runPipeline (Except.error e) s1b s2b nb sample).s1cache m = none) ∧
    (∀ m, (runPipeline (Except.error e) s1b s2b nb sample).s2cache m = none) ∧
    (∀ s m b, (runPipeline (Except.error e) s1b s2b nb sample).outputs s m b
      = none) :=
  ⟨rfl, fun _ => rfl, fun _ => rfl, fun _ _ _ => rfl⟩

/-- Counterexample to claim C6 as stated: not every possible failure inside
the exporters returns normally.  A failure of non-EEException kind (here
the file write raising, as df.to_csv can with an OSError) is not matched by
the only handler, except ee.EEException, and escapes both exporters. -/
theorem c6_counterexample :
    export_sentinel_1_data (some 0) (fun _ => .ok [idOnlyFeature])
      (fun _ => .error .otherExc) = .error .otherExc ∧
    export_sentinel_2_data (some 0) (fun _ => .ok [idOnlyFeature])
      (fun _ => .error .otherExc) = .error .otherExc :=
  ⟨rfl, rfl⟩

/-- Claim C6 as amended: a backend-query failure (an ee.EEException, the
only exception class the except clause matches) during sampling is handled
inside the exporter: the unit produces no output file and the function
returns normally; but an exception of any other kind, raised by the
backend call or by the local file write, propagates past the exporter to
its caller.  When the try block completes, the file holds exactly the
converted rows. -/
theorem c6_onlyEeExceptionCaught (C : Type) (img : Option C)
    (getInfo : C → Except ExcKind (List SampledFeature))
    (toCsv1 : List S1Row → Except ExcKind Unit)
    (toCsv2 : List S2Row → Except ExcKind Unit) :
    (∀ c, img = some c → getInfo c = .error .eeExc →
      export_sentinel_1_data img getInfo toCsv1 = .ok none ∧
      export_sentinel_2_data img getInfo toCsv2 = .ok none) ∧
    (∀ c, img = some c → getInfo c = .error .otherExc →
      export_sentinel_1_data img getInfo toCsv1 = .error .otherExc ∧
      export_sentinel_2_data img getInfo toCsv2 = .error .otherExc) ∧
    (∀ c feats rows, img = some c → getInfo c = .ok feats →
      s1RowsOfFeatures feats = .ok rows → toCsv1 rows = .error .otherExc →
      export_sentinel_1_data img getInfo toCsv1 = .error .otherExc) ∧
    (∀ c feats rows, img = some c → getInfo c = .ok feats →
      s2RowsOfFeatures feats = .ok rows → toCsv2 rows = .error .otherExc →
      export_sentinel_2_data img getInfo toCsv2 = .error .otherExc) ∧
    (∀ c feats rows u, img = some c → getInfo c = .ok feats →
      s1RowsOfFeatures feats = .ok rows → toCsv1 rows = .ok u →
      export_sentinel_1_data img getInfo toCsv1 = .ok (some rows)) := by
  refine ⟨?_, ?_, ?_, ?_, ?_⟩
  · intro c hi hg; subst hi
    exact ⟨by simp [export_sentinel_1_data, s1TryBlock, hg],
      by simp [export_sentinel_2_data, s2TryBlock, hg]⟩
  · intro c hi hg; subst hi
    exact ⟨by simp [export_sentinel_1_data, s1TryBlock, hg],
      by simp [export_sentinel_2_data, s2TryBlock, hg]⟩
  · intro c feats rows hi hg hm hc; subst hi
    simp [export_sentinel_1_data, s1TryBlock, hg, hm, hc]
  · intro c feats rows hi hg hm hc; subst hi
    simp [export_sentinel_2_data, s2TryBlock, hg, hm, hc]
  · intro c feats rows u hi hg hm hc; subst hi
    simp [export_sentinel_1_data, s1TryBlock, hg, hm, hc]

/-- Witness for C6: concrete instances of every case of the amended claim,
obtained by applying the theorem at a one-feature batch. -/
theorem c6_onlyEeExceptionCaught_witness :
    (export_sentinel_1_data (some 0) (fun _ => .error .eeExc)
      (fun _ => .ok ()) = .ok none) ∧
    (export_sentinel_2_data (some 0) (fun _ => .error .eeExc)
      (fun _ => .ok ()) = .ok none) ∧
    (export_sentinel_1_data (some 0) (fun _ => .ok [idOnlyFeature])
      (fun _ => .error .otherExc) = .error .otherExc) ∧
    (export_sentinel_1_data (some 0) (fun _ => .ok [idOnlyFeature])
      (fun _ => .ok ()) = .ok (some [idOnlyRow])) := by
  have h1 := (c6_onlyEeExceptionCaught Nat (some 0) (fun _ => .error .eeExc)
    (fun _ => .ok ()) (fun _ => .ok ())).1 0 rfl rfl
  have h2 := (c6_onlyEeExceptionCaught Nat (some 0)
    (fun _ => .ok [idOnlyFeature]) (fun _ => .error .otherExc)
    (fun _ => .error .otherExc)).2.2.1 0 [idOnlyFeature] [idOnlyRow]
    rfl rfl rfl rfl
  have h3 := (c6_onlyEeExceptionCaught Nat (some 0)
    (fun _ => .ok [idOnlyFeature]) (fun _ => .ok ())
    (fun _ => .ok ())).2.2.2.2 0 [idOnlyFeature] [idOnlyRow] ()
    rfl rfl rfl rfl
  exact ⟨h1.1, h1.2, h2, h3⟩

/-- Counterexample to claim C7 as stated: a pixel whose cloud flag is 1
before morphology is not necessarily excluded from the median reduction
input.  An isolated one-pixel cloud is erased by the erosion step
focalMin(2) of add_cld_shdw_mask, so the pixel still contributes its band
value to the reduction. -/
theorem c7_counterexample :
    (isolatedCloud (0, 0) = true) ∧ (noFlag (0, 0) = false) ∧
    sceneContribution isolatedCloud noFlag (fun _ => 5) (0, 0) = some 5 :=
  ⟨by decide, by decide, by decide⟩

/-- Claim C7 as amended: a pixel is excluded from the median reduction
input of a scene exactly when the post-morphology cloudmask flag is 1,
where the cloudmask is the erosion (radius 2) then dilation (radius 4) of
the pointwise OR of the cloud flag and the shadow flag; consequently a
pixel with no flagged pixel anywhere in its radius-4 neighborhood (in
particular both its own flags 0) is included. -/
theorem c7_maskIsPostMorphology (cloud shadow : ℤ × ℤ → Bool)
    (band : ℤ × ℤ → ℚ) (p : ℤ × ℤ) :
    (sceneContribution cloud shadow band p = none ↔
      add_cld_shdw_mask cloud shadow p = true) ∧
    (add_cld_shdw_mask cloud shadow p = true ↔
      ∃ d ∈ diskOffsets 4, ∀ d2 ∈ diskOffsets 2,
        maskUnion cloud shadow (p.1 + d.1 + d2.1, p.2 + d.2 + d2.2) = true) ∧
    ((∀ d ∈ diskOffsets 4, maskUnion cloud shadow (p.1 + d.1, p.2 + d.2)
        = false) →
      sceneContribution cloud shadow band p = some (band p)) := by
  refine ⟨?_, ?_, ?_⟩
  · by_cases h : add_cld_shdw_mask cloud shadow p <;>
      simp [sceneContribution, apply_cld_shdw_mask, h]
  · simp [add_cld_shdw_mask, focalMax, focalMin, List.any_eq_true,
      List.all_eq_true]
  · intro h
    have hmask : add_cld_shdw_mask cloud shadow p = false := by
      simp only [add_cld_shdw_mask, focalMax, List.any_eq_false]
      intro d hd hmin
      rw [focalMin, List.all_eq_true] at hmin
      have h0 := hmin ((0 : ℤ), (0 : ℤ)) (by decide)
      simp [h d hd] at h0
    simp [sceneContribution, apply_cld_shdw_mask, hmask]

/-- Witness for C7: with both flag bands 0 everywhere, the origin pixel of
a constant band contributes its value to the reduction, by the inclusion
part of the amended claim. -/
theorem c7_maskIsPostMorphology_witness :
    sceneContribution noFlag noFlag (fun _ => 7) (0, 0) = some 7 :=
  (c7_maskIsPostMorphology noFlag noFlag (fun _ => 7) (0, 0)).2.2 (by decide)

/-- Claim C9: for every feature returned by a bulk sampling request whose
id property is present, row conversion succeeds in both exporters, each
band or index property absent from the property dictionary is written to
the row as zero, and the id, longitude and latitude are carried through
unchanged from the returned feature. -/
theorem c9_missingPropertiesDefaultToZero (f : SampledFeature) (i : ℚ)
    (hid : f.props .pid = some i) :
    (∃ r, s1RowOfFeature f = .ok r ∧ r.id = i ∧ r.lon = f.lon ∧ r.lat = f.lat ∧
      (f.props .VV = none → r.vv = 0) ∧ (f.props .VH = none → r.vh = 0) ∧
      (f.props .VH_VV = none → r.vhVv = 0)) ∧
    (∃ r, s2RowOfFeature f = .ok r ∧ r.id = i ∧ r.lon = f.lon ∧ r.lat = f.lat ∧
      (f.props .NDVI = none → r.ndvi = 0) ∧ (f.props .EVI = none → r.evi = 0) ∧
      (f.props .GNDVI = none → r.gndvi = 0) ∧
      (f.props .SAVI = none → r.savi = 0) ∧
      (f.props .NDWI = none → r.ndwi = 0) ∧
      (f.props .NDMI = none → r.ndmi = 0) ∧
      (f.props .RENDVI = none → r.rendvi = 0)) := by
  constructor
  · simp only [s1RowOfFeature, hid]
    refine ⟨_, rfl, rfl, rfl, rfl, fun h => ?_, fun h => ?_, fun h => ?_⟩ <;>
      simp [h]
  · simp only [s2RowOfFeature, hid]
    refine ⟨_, rfl, rfl, rfl, rfl, fun h => ?_, fun h => ?_, fun h => ?_,
      fun h => ?_, fun h => ?_, fun h => ?_, fun h => ?_⟩ <;> simp [h]

/-- Witness for C9: the feature with id 3, coordinates (77, 13) and every
band and index property absent converts to radar and optical rows carrying
id 3, longitude 77, latitude 13 and all band and index columns 0. -/
theorem c9_missingPropertiesDefaultToZero_witness :
    (∃ r, s1RowOfFeature idOnlyFeature = .ok r ∧ r.id = 3 ∧ r.lon = 77 ∧
      r.lat = 13 ∧ r.vv = 0 ∧ r.vh = 0 ∧ r.vhVv = 0) ∧
    (∃ r, s2RowOfFeature idOnlyFeature = .ok r ∧ r.id = 3 ∧ r.ndvi = 0) := by
  obtain ⟨⟨r1, hr1, hid1, hlon1, hlat1, hvv, hvh, hvhvv⟩,
    ⟨r2, hr2, hid2, _, _, hndvi, _⟩⟩ :=
    c9_missingPropertiesDefaultToZero idOnlyFeature 3 rfl
  exact ⟨⟨r1, hr1, hid1, hlon1, hlat1, hvv rfl, hvh rfl, hvhvv rfl⟩,
    ⟨r2, hr2, hid2, hndvi rfl⟩⟩

end Sentinel
